import Mathlib

/-!
Verification of the `strois` S3 client library against its specification.

The development shallowly embeds the parts of the source the claims are
about:

* `src/error.rs` — the error taxonomy (`Error`, `UserError`,
  `InternalError`, `S3Error`, `S3ErrorCode`) and the error classifier
  `impl From<ureq::Error> for Error`;
* `src/bucket.rs` — the multipart upload engine (`Bucket::starts_multipart`,
  `Bucket::put_object_multipart`, `Multipart::upload_part`,
  `Multipart::complete`), the listing iterator (`ListObjectIterator::next`),
  the object accessors (`Bucket::get_object_bytes`,
  `Bucket::get_object_string`) and the size-based dispatch of
  `Bucket::put_object_file`.

Machine integers are modelled as `Nat` (no arithmetic in the source ever
approaches an overflow: the part counter is a `u16` bounded by 10_001 by the
guard in `upload_part`).  Byte buffers are `List Nat`.  The HTTP transport
is modelled as an explicit oracle parameter: an operation receives the
response (or failure) the transport would have produced, and returns the
trace of requests it issued, so that "no request is issued" is an
observable fact.
-/

namespace Strois

/-- The store error codes of `S3ErrorCode` in `src/error.rs` (lines 79-153).
The Rust enum is a plain `#[derive(Deserialize)]` enumeration with
`rename_all = "PascalCase"` and no fallback variant. -/
inductive S3ErrorCode where
  | AccessDenied
  | AccountProblem
  | AllAccessDisabled
  | AmbiguousGrantByEmailAddress
  | AuthorizationHeaderMalformed
  | BadDigest
  | BucketAlreadyExists
  | BucketAlreadyOwnedByYou
  | BucketNotEmpty
  | CredentialsNotSupported
  | CrossLocationLoggingProhibited
  | EntityTooSmall
  | EntityTooLarge
  | ExpiredToken
  | IllegalVersioningConfigurationException
  | IncompleteBody
  | IncorrectNumberOfFilesInPostRequest
  | InlineDataTooLarge
  | InvalidAccessKeyId
  | InvalidAddressingHeader
  | InvalidArgument
  | InvalidBucketName
  | InvalidBucketState
  | InvalidDigest
  | InvalidLocationConstraint
  | InvalidObjectState
  | InvalidPart
  | InvalidPartOrder
  | InvalidPayer
  | InvalidPolicyDocument
  | InvalidRange
  | InvalidRequest
  | InvalidSecurity
  | InvalidSOAPRequest
  | InvalidStorageClass
  | InvalidTargetBucketForLogging
  | InvalidToken
  | InvalidURI
  | MalformedPOSTRequest
  | MalformedXML
  | MaxMessageLengthExceeded
  | MetadataTooLarge
  | MethodNotAllowed
  | MissingAttachment
  | MissingContentLength
  | MissingSecurityElement
  | MissingSecurityHeader
  | NoLoggingStatusForKey
  | NoSuchBucket
  | NoSuchBucketPolicy
  | NoSuchKey
  | NoSuchLifecycleConfiguration
  | NoSuchUpload
  | NoSuchVersion
  | NotImplemented
  | NotSignedUp
  | OperationAborted
  | PermanentRedirect
  | PreconditionFailed
  | Redirect
  | RestoreAlreadyInProgress
  | RequestIsNotMultiPartContent
  | RequestTimeout
  | RequestTimeTooSkewed
  | SignatureDoesNotMatch
  | ServiceUnavailable
  | SlowDown
  | TemporaryRedirect
  | TokenRefreshRequired
  | TooManyBuckets
  | UnexpectedContent
  | UnresolvableGrantByEmailAddress
  | UserKeyMustBeSpecified
deriving DecidableEq, Repr

/-- Deserialization of the `Code` text content into `S3ErrorCode`, as the
serde derive performs it: a code string is accepted exactly when it equals
the PascalCase name of one of the enum's variants; any other string is a
deserialization error (`none`).  The enum is closed: there is no catch-all
variant. -/
def parseS3ErrorCode (s : String) : Option S3ErrorCode :=
  match s with
  | "AccessDenied" => some .AccessDenied
  | "AccountProblem" => some .AccountProblem
  | "AllAccessDisabled" => some .AllAccessDisabled
  | "AmbiguousGrantByEmailAddress" => some .AmbiguousGrantByEmailAddress
  | "AuthorizationHeaderMalformed" => some .AuthorizationHeaderMalformed
  | "BadDigest" => some .BadDigest
  | "BucketAlreadyExists" => some .BucketAlreadyExists
  | "BucketAlreadyOwnedByYou" => some .BucketAlreadyOwnedByYou
  | "BucketNotEmpty" => some .BucketNotEmpty
  | "CredentialsNotSupported" => some .CredentialsNotSupported
  | "CrossLocationLoggingProhibited" => some .CrossLocationLoggingProhibited
  | "EntityTooSmall" => some .EntityTooSmall
  | "EntityTooLarge" => some .EntityTooLarge
  | "ExpiredToken" => some .ExpiredToken
  | "IllegalVersioningConfigurationException" => some .IllegalVersioningConfigurationException
  | "IncompleteBody" => some .IncompleteBody
  | "IncorrectNumberOfFilesInPostRequest" => some .IncorrectNumberOfFilesInPostRequest
  | "InlineDataTooLarge" => some .InlineDataTooLarge
  | "InvalidAccessKeyId" => some .InvalidAccessKeyId
  | "InvalidAddressingHeader" => some .InvalidAddressingHeader
  | "InvalidArgument" => some .InvalidArgument
  | "InvalidBucketName" => some .InvalidBucketName
  | "InvalidBucketState" => some .InvalidBucketState
  | "InvalidDigest" => some .InvalidDigest
  | "InvalidLocationConstraint" => some .InvalidLocationConstraint
  | "InvalidObjectState" => some .InvalidObjectState
  | "InvalidPart" => some .InvalidPart
  | "InvalidPartOrder" => some .InvalidPartOrder
  | "InvalidPayer" => some .InvalidPayer
  | "InvalidPolicyDocument" => some .InvalidPolicyDocument
  | "InvalidRange" => some .InvalidRange
  | "InvalidRequest" => some .InvalidRequest
  | "InvalidSecurity" => some .InvalidSecurity
  | "InvalidSOAPRequest" => some .InvalidSOAPRequest
  | "InvalidStorageClass" => some .InvalidStorageClass
  | "InvalidTargetBucketForLogging" => some .InvalidTargetBucketForLogging
  | "InvalidToken" => some .InvalidToken
  | "InvalidURI" => some .InvalidURI
  | "MalformedPOSTRequest" => some .MalformedPOSTRequest
  | "MalformedXML" => some .MalformedXML
  | "MaxMessageLengthExceeded" => some .MaxMessageLengthExceeded
  | "MetadataTooLarge" => some .MetadataTooLarge
  | "MethodNotAllowed" => some .MethodNotAllowed
  | "MissingAttachment" => some .MissingAttachment
  | "MissingContentLength" => some .MissingContentLength
  | "MissingSecurityElement" => some .MissingSecurityElement
  | "MissingSecurityHeader" => some .MissingSecurityHeader
  | "NoLoggingStatusForKey" => some .NoLoggingStatusForKey
  | "NoSuchBucket" => some .NoSuchBucket
  | "NoSuchBucketPolicy" => some .NoSuchBucketPolicy
  | "NoSuchKey" => some .NoSuchKey
  | "NoSuchLifecycleConfiguration" => some .NoSuchLifecycleConfiguration
  | "NoSuchUpload" => some .NoSuchUpload
  | "NoSuchVersion" => some .NoSuchVersion
  | "NotImplemented" => some .NotImplemented
  | "NotSignedUp" => some .NotSignedUp
  | "OperationAborted" => some .OperationAborted
  | "PermanentRedirect" => some .PermanentRedirect
  | "PreconditionFailed" => some .PreconditionFailed
  | "Redirect" => some .Redirect
  | "RestoreAlreadyInProgress" => some .RestoreAlreadyInProgress
  | "RequestIsNotMultiPartContent" => some .RequestIsNotMultiPartContent
  | "RequestTimeout" => some .RequestTimeout
  | "RequestTimeTooSkewed" => some .RequestTimeTooSkewed
  | "SignatureDoesNotMatch" => some .SignatureDoesNotMatch
  | "ServiceUnavailable" => some .ServiceUnavailable
  | "SlowDown" => some .SlowDown
  | "TemporaryRedirect" => some .TemporaryRedirect
  | "TokenRefreshRequired" => some .TokenRefreshRequired
  | "TooManyBuckets" => some .TooManyBuckets
  | "UnexpectedContent" => some .UnexpectedContent
  | "UnresolvableGrantByEmailAddress" => some .UnresolvableGrantByEmailAddress
  | "UserKeyMustBeSpecified" => some .UserKeyMustBeSpecified
  | _ => none

/-- `UserError` of `src/error.rs`.  `PayloadCouldNotBeConvertedToString`
carries the Rust `FromUtf8Error`, which owns the offending byte vector;
we model it by those bytes.  `TriedToSendMoreThan10000PartsInMultiPart` is
the variant raised by `Multipart::upload_part` in `src/bucket.rs`. -/
inductive UserError where
  | PayloadCouldNotBeConvertedToString (bytes : List Nat)
  | TriedToSendMoreThan10000PartsInMultiPart
deriving DecidableEq, Repr

/-- `InternalError` of `src/error.rs`; `MultipartMissingEtagHeader` is the
variant raised by `Multipart::upload_part` in `src/bucket.rs`, carrying the
comma-joined response header names.  Error payloads that are foreign library
values (`io::Error`, `quick_xml::de::DeError`) are modelled as strings. -/
inductive InternalError where
  | S3ReturnedNonUtf8Payload (msg : String)
  | BadS3Payload (msg : String)
  | MultipartMissingEtagHeader (headers : String)
deriving DecidableEq, Repr

/-- `S3Error` of `src/error.rs` (lines 62-75): the deserialized XML error
body plus the HTTP status code (`#[serde(skip)]`, filled in afterwards). -/
structure S3Error where
  status_code : Nat
  code : S3ErrorCode
  message : String
  bucket_name : Option String
  resource : String
  request_id : String
  host_id : String
deriving DecidableEq, Repr

/-- The `Error` enum of `src/error.rs`.  Foreign payloads (`io::Error`,
`ureq::Error` transport variants, `rusty_s3::BucketError`,
`url::ParseError`) are modelled as strings. -/
inductive Error where
  | UserError (e : UserError)
  | IoError (msg : String)
  | S3Error (e : S3Error)
  | InternalError (e : InternalError)
  | HttpError (msg : String)
  | RustyS3 (msg : String)
  | Url (msg : String)
deriving DecidableEq, Repr

/-- The raw field contents of a non-2xx XML error body, before
deserialization: each field is `some` text when the XML document carries the
(case-sensitive) tag, `none` when the tag is absent. -/
structure RawErrorBody where
  code : Option String
  message : Option String
  bucketName : Option String
  resource : Option String
  requestId : Option String
  hostId : Option String
deriving DecidableEq, Repr

/-- serde deserialization of an XML error body into `S3Error`
(`quick_xml::de::from_reader` with the derives on `S3Error`): the
non-`Option` fields `Message`, `Resource`, `RequestId`, `HostId` must be
present, `BucketName` is optional, and the `Code` text must parse into the
closed enum `S3ErrorCode` — otherwise deserialization fails (`none`).
`status_code` is `#[serde(skip)]` and defaults to 0 here; the caller
overwrites it. -/
def deserializeS3Error (raw : RawErrorBody) : Option S3Error :=
  match raw.code, raw.message, raw.resource, raw.requestId, raw.hostId with
  | some c, some m, some r, some rid, some hid =>
    match parseS3ErrorCode c with
    | some code =>
      some { status_code := 0, code := code, message := m,
             bucket_name := raw.bucketName, resource := r,
             request_id := rid, host_id := hid }
    | none => none
  | _, _, _, _, _ => none

/-- A `ureq::Error`: either a non-2xx HTTP status with a response body, or a
transport-level failure before any status was received. -/
inductive UreqError where
  | Status (code : Nat) (body : RawErrorBody)
  | Transport (msg : String)
deriving DecidableEq, Repr

/-- The error classifier `impl From<ureq::Error> for Error` in
`src/error.rs` (lines 31-46): a `Status` error has its XML body
deserialized into `S3Error` (failure to deserialize is
`InternalError::BadS3Payload`), then the status code is attached; any other
`ureq` error becomes `HttpError`.  The `quick_xml` error text is not
modelled beyond its presence. -/
def errorFromUreq (e : UreqError) : Error :=
  match e with
  | .Status code body =>
    match deserializeS3Error body with
    | some err => .S3Error { err with status_code := code }
    | none => .InternalError (.BadS3Payload "deserialization failed")
  | .Transport m => .HttpError m

/-! ## Multipart upload engine (`src/bucket.rs`) -/

/-- Rust `str::trim_matches('"')`: remove every leading and trailing `'"'`
character.  Used on the `ETag` response header in `Multipart::upload_part`. -/
def trimQuotes (s : String) : String :=
  String.mk (((s.toList.dropWhile (· == '"')).reverse.dropWhile (· == '"')).reverse)

/-- An upload-part HTTP request, as issued by `Multipart::upload_part`:
`UploadPart::new(bucket, cred, path, part, upload_id)` followed by
`put_with_body(action, buffer, buffer.len())`.  Only the part number and the
body bytes vary within a session; bucket, path and upload id are fixed. -/
structure PartRequest where
  partNumber : Nat
  bytes : List Nat
deriving DecidableEq, Repr

/-- The transport's response to an upload-part request, as observed by
`Multipart::upload_part`: the optional `ETag` header value and the list of
response header names (used in the `MultipartMissingEtagHeader` message). -/
structure PartResponse where
  etag : Option String
  headerNames : List String
deriving DecidableEq, Repr

/-- The mutable state of a `Multipart` session (`src/bucket.rs` lines
440-446): the next part number (`u16`, starts at 1) and the ordered list of
collected ETags. -/
structure MultipartState where
  part : Nat
  etags : List String
deriving DecidableEq, Repr

/-- The session state constructed by `Bucket::starts_multipart`
(`src/bucket.rs` lines 379-385): `part = 1`, no ETags. -/
def starts_multipart : MultipartState := { part := 1, etags := [] }

/-- Outcome of one `Multipart::upload_part` call.  `ok` returns the updated
session; `err` returns the error together with the (unchanged) session the
caller still holds — the Rust method takes `&mut self` and mutates only
after every fallible step; `panicked` models an uncatchable panic
(`Option::unwrap` / `Result::unwrap` on a failure). -/
inductive UploadOutcome where
  | ok (s : MultipartState)
  | err (e : Error) (s : MultipartState)
  | panicked
deriving DecidableEq, Repr

/-- `Multipart::upload_part` (`src/bucket.rs` lines 449-475).  `resp` is the
transport's answer to the part-upload request (`put_with_body` returns
`Result<Response, Error>`).  The second component is the list of HTTP
requests the call issued.  Control flow from the source:
 * `part > 10_000` returns `UserError::TriedToSendMoreThan10000PartsInMultiPart`
   before building or sending any request;
 * the `put_with_body` result is `.unwrap()`ed — a transport or store
   failure is a panic, not a returned error;
 * a missing `ETag` response header is
   `InternalError::MultipartMissingEtagHeader` (header names joined with
   a comma), returned by `?` before `etags` or `part` are touched;
 * otherwise the quote-trimmed ETag is pushed and `part` is incremented. -/
def upload_part (s : MultipartState) (buffer : List Nat)
    (resp : Except Error PartResponse) : UploadOutcome × List PartRequest :=
  if s.part > 10000 then
    (.err (.UserError .TriedToSendMoreThan10000PartsInMultiPart) s, [])
  else
    match resp with
    | .error _ => (.panicked, [{ partNumber := s.part, bytes := buffer }])
    | .ok response =>
      match response.etag with
      | none =>
        (.err (.InternalError (.MultipartMissingEtagHeader
            (String.intercalate ", " response.headerNames))) s,
         [{ partNumber := s.part, bytes := buffer }])
      | some etag =>
        (.ok { part := s.part + 1, etags := s.etags ++ [trimQuotes etag] },
         [{ partNumber := s.part, bytes := buffer }])

/-- Run a sequence of `upload_part` calls on a session: each item is the
buffer passed in and the transport response for that part.  Stops at the
first non-`ok` outcome, accumulating the issued requests in order. -/
def runParts (s : MultipartState)
    (items : List (List Nat × Except Error PartResponse)) :
    UploadOutcome × List PartRequest :=
  match items with
  | [] => (.ok s, [])
  | (buf, resp) :: rest =>
    match upload_part s buf resp with
    | (.ok s1, reqs) =>
      let r := runParts s1 rest
      (r.1, reqs ++ r.2)
    | (out, reqs) => (out, reqs)

/-! ### The read loop of `Bucket::put_object_multipart` -/

/-- A byte source implementing `std::io::Read`.  `data` is the remaining
byte stream; `sched` is a schedule of read sizes modelling short reads: the
next `read` call returns `min (max k 1) space` bytes (where `k` is the
schedule head and `space` the free room in the caller's buffer), or
`space` bytes once the schedule is exhausted — always clamped by the
remaining data.  A read returns 0 bytes exactly when the stream is at
end-of-data, per the `Read` convention the loop relies on. -/
structure ByteStream where
  data : List Nat
  sched : List Nat
deriving DecidableEq, Repr

/-- One `content.read(buf)` call on the stream: returns the bytes read and
the advanced stream. -/
def ByteStream.read (s : ByteStream) (space : Nat) : List Nat × ByteStream :=
  let want := match s.sched with
    | [] => space
    | k :: _ => min (max k 1) space
  let n := min want s.data.length
  (s.data.take n, { data := s.data.drop n, sched := s.sched.tail })

/-- The inner `while !buf.is_empty()` loop of `put_object_multipart`
(`src/bucket.rs` lines 402-409): keep reading into the remaining buffer
space until the buffer is full or a read returns 0 bytes.  Returns the
filled bytes (`buffer[..size]`) and the advanced stream.  `fuel` bounds the
iteration count; `space` iterations always suffice (each non-final read
consumes at least one byte of space), as proved in `fillBuffer_spec`. -/
def fillBuffer : Nat → ByteStream → Nat → List Nat → List Nat × ByteStream
  | 0, s, _, acc => (acc, s)
  | fuel + 1, s, space, acc =>
    if space = 0 then (acc, s)
    else
      let r := s.read space
      if r.1.length = 0 then (acc, r.2)
      else fillBuffer fuel r.2 (space - r.1.length) (acc ++ r.1)

/-- The outer `loop` of `put_object_multipart` (`src/bucket.rs` lines
398-417), reduced to the sequence of part payloads it sends: fill a buffer
of `chunkSize` bytes, stop when the fill is empty, otherwise upload the
filled bytes as the next part and continue.  `fuel` bounds the iteration
count; `data.length + 1` iterations always suffice. -/
def multipartPartsAux : Nat → Nat → ByteStream → List (List Nat)
  | 0, _, _ => []
  | fuel + 1, chunkSize, s =>
    let r := fillBuffer (chunkSize + 1) s chunkSize []
    if r.1.length = 0 then []
    else r.1 :: multipartPartsAux fuel chunkSize r.2

/-- The parts sent by the `put_object_multipart` read loop for a given
chunk size (`client.multipart_size`) and source stream. -/
def multipartParts (chunkSize : Nat) (s : ByteStream) : List (List Nat) :=
  multipartPartsAux (s.data.length + 1) chunkSize s

/-- The observable request trace of one `Bucket::put_object_multipart`
call on the success path: whether the create-multipart request was issued,
the `(part number, payload)` of each upload-part request in order, and the
`(PartNumber, ETag)` pairs of the complete-multipart request body
(`none` if `complete` was never reached). -/
structure MultipartTrace where
  createIssued : Bool
  partUploads : List (Nat × List Nat)
  completeParts : Option (List (Nat × String))
deriving DecidableEq, Repr

/-- `Bucket::put_object_multipart` (`src/bucket.rs` lines 388-420) on the
success path, with the transport abstracted by `etagOf` (the raw `ETag`
header the store returns for each part number): `starts_multipart` issues
the create request unconditionally; each non-empty fill is uploaded via
`upload_part`, which assigns part numbers 1, 2, … and collects the
quote-trimmed ETags; `Multipart::complete` (lines 477-492) then sends the
collected ETags paired with part numbers 1, 2, … in order
(`CompleteMultipartUpload` enumerates the ETag iterator from 1). -/
def put_object_multipart (chunkSize : Nat) (s : ByteStream)
    (etagOf : Nat → String) : MultipartTrace :=
  let parts := multipartParts chunkSize s
  let etags := (List.range' 1 parts.length).map (fun i => trimQuotes (etagOf i))
  { createIssued := true
    partUploads := (List.range' 1 parts.length).zip parts
    completeParts := some ((List.range' 1 etags.length).zip etags) }

/-! ## Size-based dispatch of `Bucket::put_object_file` -/

/-- `MINIMAL_PUT_OBJECT_SIZE` in `Bucket::put_object_file`
(`src/bucket.rs` line 424): 5 MiB. -/
def MINIMAL_PUT_OBJECT_SIZE : Nat := 5 * 1024 * 1024

/-- Which upload path `put_object_file` takes. -/
inductive UploadRoute where
  | singleShot
  | multipart
deriving DecidableEq, Repr

/-- The dispatch of `Bucket::put_object_file` (`src/bucket.rs` lines
423-437) on the file's length: `size > MINIMAL_PUT_OBJECT_SIZE` routes
through `put_object_multipart`, otherwise through the single-shot
`put_object_reader`. -/
def put_object_file_route (size : Nat) : UploadRoute :=
  if size > MINIMAL_PUT_OBJECT_SIZE then .multipart else .singleShot

/-! ## Object accessors (`Bucket::get_object_bytes` / `get_object_string`) -/

/-- A UTF-8 continuation byte: `0x80..=0xBF`. -/
def isCont (b : Nat) : Bool := 0x80 ≤ b && b ≤ 0xBF

/-- UTF-8 validity of a byte sequence, exactly as `String::from_utf8`
checks it (RFC 3629 well-formedness: shortest forms only, no surrogates,
code points at most `U+10FFFF`). -/
def isValidUtf8 : List Nat → Bool
  | [] => true
  | b :: rest =>
    if b ≤ 0x7F then isValidUtf8 rest
    else if 0xC2 ≤ b && b ≤ 0xDF then
      match rest with
      | b2 :: rest2 => isCont b2 && isValidUtf8 rest2
      | [] => false
    else if b = 0xE0 then
      match rest with
      | b2 :: b3 :: rest3 =>
        (0xA0 ≤ b2 && b2 ≤ 0xBF) && isCont b3 && isValidUtf8 rest3
      | _ => false
    else if (0xE1 ≤ b && b ≤ 0xEC) || b = 0xEE || b = 0xEF then
      match rest with
      | b2 :: b3 :: rest3 => isCont b2 && isCont b3 && isValidUtf8 rest3
      | _ => false
    else if b = 0xED then
      match rest with
      | b2 :: b3 :: rest3 =>
        (0x80 ≤ b2 && b2 ≤ 0x9F) && isCont b3 && isValidUtf8 rest3
      | _ => false
    else if b = 0xF0 then
      match rest with
      | b2 :: b3 :: b4 :: rest4 =>
        (0x90 ≤ b2 && b2 ≤ 0xBF) && isCont b3 && isCont b4 && isValidUtf8 rest4
      | _ => false
    else if 0xF1 ≤ b && b ≤ 0xF3 then
      match rest with
      | b2 :: b3 :: b4 :: rest4 =>
        isCont b2 && isCont b3 && isCont b4 && isValidUtf8 rest4
      | _ => false
    else if b = 0xF4 then
      match rest with
      | b2 :: b3 :: b4 :: rest4 =>
        (0x80 ≤ b2 && b2 ≤ 0x8F) && isCont b3 && isCont b4 && isValidUtf8 rest4
      | _ => false
    else false

/-- `Bucket::get_object_bytes` (`src/bucket.rs` lines 243-249): open a
reader on the object and `read_to_end` into a byte vector.  The store (the
GET reply for a key) is modelled as a function from key to either the
object's bytes or the error produced by the lower layers; the byte accessor
passes both through unchanged — it performs no decoding of any kind. -/
def get_object_bytes (store : String → Except Error (List Nat))
    (path : String) : Except Error (List Nat) :=
  store path

/-- `Bucket::get_object_string` (`src/bucket.rs` lines 218-221): fetch the
bytes via `get_object_bytes`, then `String::from_utf8`, mapping a decode
failure to `UserError::PayloadCouldNotBeConvertedToString` (which owns the
original bytes).  A Rust `String` is its UTF-8 bytes, so the success value
is modelled by the byte list itself. -/
def get_object_string (store : String → Except Error (List Nat))
    (path : String) : Except Error (List Nat) :=
  match get_object_bytes store path with
  | .error e => .error e
  | .ok bytes =>
    if isValidUtf8 bytes then .ok bytes
    else .error (.UserError (.PayloadCouldNotBeConvertedToString bytes))

/-! ## The listing iterator (`ListObjectIterator`, `src/bucket.rs`) -/

/-- One object entry of a listing page (`ListObjectsContent`): key and
size (other fields are opaque metadata the iterator never inspects). -/
structure Entry where
  key : String
  size : Nat
deriving DecidableEq, Repr

/-- A parsed `ListObjectsV2Response`, restricted to the fields the iterator
destructures: the page's entries and the optional continuation token.
Tokens are opaque to the client (trusted verbatim); they are modelled as
naturals. -/
structure Page where
  contents : List Entry
  nextToken : Option Nat
deriving DecidableEq, Repr

/-- What a page fetch produces, following the three fallible steps of
`ListObjectIterator::next`: `self.bucket.client.get(action)` can fail with
an `Error` (`fetchErr`), `response.into_string()` can fail with an
`io::Error` (`nonUtf8`), `ListObjectsV2::parse_response` can fail
(`parseErr`), or the page parses (`ok`). -/
inductive FetchRes where
  | fetchErr (e : Error)
  | nonUtf8 (msg : String)
  | parseErr (msg : String)
  | ok (page : Page)
deriving Repr

/-- The state of `ListObjectIterator` (`src/bucket.rs` lines 495-499): the
buffered entries of the current page (`current_bucket`, a vector iterator)
and the optional continuation token. -/
structure ListIt where
  current : List Entry
  token : Option Nat
deriving DecidableEq, Repr

/-- The result of one `next()` call: an item (`Some(Ok(entry))` or
`Some(Err(e))`), exhaustion (`None`), or fuel exhaustion of the model (the
Rust recursion has no bound; every theorem below supplies enough fuel). -/
inductive NextRes where
  | item (r : Except Error Entry)
  | exhausted
  | fuelOut
deriving Repr

/-- `ListObjectIterator::next` (`src/bucket.rs` lines 504-539).  `store`
answers a listing request for a continuation token.  Returns the yielded
result, the iterator state after the call, and the list of page requests
issued (identified by their continuation token), in order.  Control flow
from the source:
 * a buffered entry is popped and yielded; no request is issued;
 * otherwise, no token (`self.continuation_token.as_ref()?`) yields `None`
   and changes nothing;
 * otherwise a listing request is issued with the token; each of the three
   failure modes yields `Some(Err(_))` — the error of `client.get` as-is,
   an `into_string` failure as `Error::IoError`, a parse failure as
   `InternalError::BadS3Payload` — and the token and buffer are left
   untouched;
 * a parsed page replaces the buffer and token, and `next` recurses. -/
def ListIt.next (store : Nat → FetchRes) :
    Nat → ListIt → NextRes × ListIt × List Nat
  | _, ⟨e :: rest, tok⟩ =>
    (.item (.ok e), { current := rest, token := tok }, [])
  | _, ⟨[], none⟩ => (.exhausted, { current := [], token := none }, [])
  | 0, ⟨[], some t⟩ => (.fuelOut, { current := [], token := some t }, [])
  | fuel + 1, ⟨[], some t⟩ =>
    match store t with
    | .fetchErr e => (.item (.error e), { current := [], token := some t }, [t])
    | .nonUtf8 m =>
      (.item (.error (.IoError m)), { current := [], token := some t }, [t])
    | .parseErr m =>
      (.item (.error (.InternalError (.BadS3Payload m))),
       { current := [], token := some t }, [t])
    | .ok page =>
      let r := ListIt.next store fuel
        { current := page.contents, token := page.nextToken }
      (r.1, r.2.1, t :: r.2.2)

/-- The `Error` a failed fetch makes `next` yield, per failure mode. -/
def fetchErrorOf : FetchRes → Option Error
  | .fetchErr e => some e
  | .nonUtf8 m => some (.IoError m)
  | .parseErr m => some (.InternalError (.BadS3Payload m))
  | .ok _ => none

/-- A store serving a fixed finite chain of pages: page `i` holds
`pages[i]` and links to page `i + 1` when one exists.  Out-of-range tokens
(which the chain never hands out) answer with a parse error. -/
def chainStore (pages : List (List Entry)) : Nat → FetchRes :=
  fun i =>
    if h : i < pages.length then
      .ok { contents := pages.get ⟨i, h⟩,
            nextToken := if i + 1 < pages.length then some (i + 1) else none }
    else .parseErr "no such page"

/-- Well-formedness of an iterator state over a page chain: a stored token
points at an existing page. -/
def wfIt (pages : List (List Entry)) (it : ListIt) : Prop :=
  ∀ i, it.token = some i → i < pages.length

/-- The entries the iterator still has to yield: the buffered ones, then
the contents of every page from the token on, in page order. -/
def remEntries (pages : List (List Entry)) (it : ListIt) : List Entry :=
  it.current ++ (match it.token with
    | none => []
    | some i => (pages.drop i).flatten)

/-! ## Theorems -/

/-- C1 is false on the code at a concrete input: the XML error body of a
non-2xx response carrying the unknown code `TamoIsHungry` (all other fields
present and well-formed) does not deserialize into any "unrecognized"
variant — `S3ErrorCode` is a closed enum — and the classifier returns
`InternalError::BadS3Payload`, not a `StoreError`. -/
theorem c1_counterexample :
    parseS3ErrorCode "TamoIsHungry" = none ∧
    errorFromUreq (.Status 400
      { code := some "TamoIsHungry", message := some "we are hungry",
        bucketName := none, resource := some "/tamo",
        requestId := some "riq", hostId := some "hiq" }) =
      .InternalError (.BadS3Payload "deserialization failed") :=
  ⟨rfl, rfl⟩

/-- C1 (amended): for every non-2xx response whose XML error body carries a
`Code` value outside the client's known set — or no recognizable `Code` at
all — deserialization of the body fails and the classifier returns
`InternalError::BadS3Payload` (a typed error value, not a crash); there is
no "unrecognized" variant. -/
theorem c1_unknown_code_is_internal_error (status : Nat) (body : RawErrorBody)
    (h : ∀ s, body.code = some s → parseS3ErrorCode s = none) :
    errorFromUreq (.Status status body) =
      .InternalError (.BadS3Payload "deserialization failed") := by
  obtain ⟨code, message, bucketName, resource, requestId, hostId⟩ := body
  cases code with
  | none =>
    cases message <;> cases resource <;> cases requestId <;> cases hostId <;> rfl
  | some s =>
    have hs := h s rfl
    cases message <;> cases resource <;> cases requestId <;> cases hostId <;>
      simp [errorFromUreq, deserializeS3Error, hs]

/-- Witness for C1 (amended) at a concrete unknown code. -/
theorem c1_witness :
    errorFromUreq (.Status 404
      { code := some "SomeFutureCode", message := some "m", bucketName := none,
        resource := some "/r", requestId := some "1", hostId := some "2" }) =
      .InternalError (.BadS3Payload "deserialization failed") :=
  c1_unknown_code_is_internal_error 404 _
    (by intro s hs; injection hs with h; rw [← h]; rfl)

/-- C2 fails on the code: `Multipart::upload_part` calls `.unwrap()` on the
result of `put_with_body` (`src/bucket.rs` line 466), so a transport or
store failure during the part-upload request is an uncatchable panic, not a
returned `Result` error.  Evaluated here at a concrete failing input: the
very first part upload whose transport request fails. -/
theorem c2_upload_part_panics_on_transport_failure :
    upload_part starts_multipart [116, 97]
      (.error (.HttpError "connection reset")) =
      (.panicked, [{ partNumber := 1, bytes := [116, 97] }]) :=
  rfl

/-- C8 is false on the code at a concrete input: a file of exactly 5 MiB is
not below the threshold, yet `put_object_file` routes it through the
single-shot path, because the test in the source is the strict
`size > MINIMAL_PUT_OBJECT_SIZE`. -/
theorem c8_counterexample :
    put_object_file_route (5 * 1024 * 1024) = .singleShot ∧
    ¬ (5 * 1024 * 1024 < MINIMAL_PUT_OBJECT_SIZE) :=
  ⟨rfl, by decide⟩

/-- C8 (amended): `put_object_file` uses the single-shot path exactly when
the file's known length is **at most** 5 MiB, and the multipart engine for
strictly larger files; in particular a file of exactly 5 MiB goes through
the single-shot path. -/
theorem c8_amended_dispatch (size : Nat) :
    put_object_file_route size = .singleShot ↔ size ≤ MINIMAL_PUT_OBJECT_SIZE := by
  unfold put_object_file_route
  split <;> rename_i h <;> simp <;> omega

/-- C9: fetching a stored object as raw bytes returns the stored bytes
unchanged and can never fail for encoding reasons (the byte accessor does
no decoding at all); fetching the same object as a string succeeds exactly
when the bytes are valid UTF-8 and otherwise fails with
`UserError::PayloadCouldNotBeConvertedToString` carrying the unchanged
bytes, while the byte accessor still returns them. -/
theorem c9_bytes_always_string_user_error
    (store : String → Except Error (List Nat)) (path : String)
    (bytes : List Nat) (h : store path = .ok bytes) :
    get_object_bytes store path = .ok bytes ∧
    (isValidUtf8 bytes = true → get_object_string store path = .ok bytes) ∧
    (isValidUtf8 bytes = false →
       get_object_string store path =
         .error (.UserError (.PayloadCouldNotBeConvertedToString bytes)) ∧
       get_object_bytes store path = .ok bytes) := by
  refine ⟨h, ?_, ?_⟩ <;> intro hv <;>
    simp [get_object_string, get_object_bytes, h, hv]

/-- Witness for C9: the object `"a"` holds the bytes of `"kero"` (valid
UTF-8), the object `"b"` holds the single byte `0xFF` (invalid UTF-8). -/
theorem c9_witness :
    get_object_bytes
        (fun k => if k = "b" then .ok [255] else .ok [107, 101, 114, 111])
        "b" = .ok [255] ∧
    get_object_string
        (fun k => if k = "b" then .ok [255] else .ok [107, 101, 114, 111])
        "b" = .error (.UserError (.PayloadCouldNotBeConvertedToString [255])) ∧
    get_object_string
        (fun k => if k = "b" then .ok [255] else .ok [107, 101, 114, 111])
        "a" = .ok [107, 101, 114, 111] := by
  have h1 := c9_bytes_always_string_user_error
    (fun k => if k = "b" then .ok [255] else .ok [107, 101, 114, 111])
    "b" [255] (by simp)
  have h2 := c9_bytes_always_string_user_error
    (fun k => if k = "b" then .ok [255] else .ok [107, 101, 114, 111])
    "a" [107, 101, 114, 111] (by simp)
  exact ⟨h1.1, (h1.2.2 (by decide)).1, h2.2.1 (by decide)⟩

/-- Helper: a successful `upload_part` call issues exactly one request,
numbered with the current part counter, and increments the counter. -/
theorem upload_part_ok_inv (s : MultipartState) (buf : List Nat)
    (resp : Except Error PartResponse) (s1 : MultipartState)
    (reqs : List PartRequest) (h : upload_part s buf resp = (.ok s1, reqs)) :
    s1.part = s.part + 1 ∧ reqs.map PartRequest.partNumber = [s.part] := by
  unfold upload_part at h
  split at h
  · simp at h
  · cases resp with
    | error e => simp at h
    | ok r =>
      obtain ⟨etag, names⟩ := r
      cases etag with
      | none => simp at h
      | some v =>
        simp only [Prod.mk.injEq, UploadOutcome.ok.injEq] at h
        obtain ⟨h1, h2⟩ := h
        subst h1 h2
        simp

/-- Helper: a run of successful `upload_part` calls starting from part
counter `s.part` ends at `s.part + n` and issues the part numbers
`s.part, s.part + 1, …, s.part + n - 1` in order. -/
theorem runParts_ok_inv (items : List (List Nat × Except Error PartResponse)) :
    ∀ s s1 reqs, runParts s items = (.ok s1, reqs) →
      s1.part = s.part + items.length ∧
      reqs.map PartRequest.partNumber = List.range' s.part items.length := by
  induction items with
  | nil =>
    intro s s1 reqs h
    simp only [runParts, Prod.mk.injEq, UploadOutcome.ok.injEq] at h
    obtain ⟨h1, h2⟩ := h
    subst h1 h2
    simp
  | cons item rest ih =>
    intro s s1 reqs h
    obtain ⟨buf, resp⟩ := item
    simp only [runParts] at h
    cases hu : upload_part s buf resp with
    | mk out reqs0 =>
      rw [hu] at h
      cases out with
      | ok s0 =>
        simp only [Prod.mk.injEq] at h
        obtain ⟨h1, h2⟩ := h
        cases hr : runParts s0 rest with
        | mk out1 reqs1 =>
          rw [hr] at h1 h2
          simp only at h1 h2
          subst h1
          have hstep := upload_part_ok_inv s buf resp s0 reqs0 hu
          have hrest := ih s0 s1 reqs1 hr
          subst h2
          constructor
          · rw [hrest.1, hstep.1]
            simp [Nat.add_comm, Nat.add_assoc, Nat.add_left_comm]
          · rw [List.map_append, hstep.2, hrest.2, hstep.1]
            simp [List.range'_succ]
      | err e s2 => simp at h
      | panicked => simp at h

/-- C3: within a single multipart session (which `starts_multipart` opens
with part counter 1), part numbers are assigned strictly sequentially
starting at 1 with no gaps or repeats — a run of `n` successful part
uploads issues exactly the part numbers `1, …, n` in order and leaves the
counter at `n + 1`; and in the state reached after 10 000 parts (counter =
10 001), `upload_part` returns
`UserError::TriedToSendMoreThan10000PartsInMultiPart` and issues no
request, whatever the buffer and whatever the transport would answer. -/
theorem c3_sequential_parts_and_10000_cap :
    (∀ items s1 reqs, runParts starts_multipart items = (.ok s1, reqs) →
       s1.part = items.length + 1 ∧
       reqs.map PartRequest.partNumber = List.range' 1 items.length) ∧
    (∀ (s : MultipartState) (buf : List Nat)
       (resp : Except Error PartResponse), s.part = 10001 →
       upload_part s buf resp =
         (.err (.UserError .TriedToSendMoreThan10000PartsInMultiPart) s, [])) := by
  constructor
  · intro items s1 reqs h
    have hrun := runParts_ok_inv items starts_multipart s1 reqs h
    simpa [starts_multipart, Nat.add_comm] using hrun
  · intro s buf resp h
    unfold upload_part
    rw [if_pos (by omega)]

/-- Witness for C3: two successful part uploads issue part numbers 1 and 2
and leave the counter at 3; a session whose counter is 10 001 is refused
without any request. -/
theorem c3_witness :
    runParts starts_multipart
        [([10], .ok { etag := some "\"a\"", headerNames := ["etag"] }),
         ([20], .ok { etag := some "\"b\"", headerNames := ["etag"] })] =
      (.ok { part := 3, etags := ["a", "b"] },
       [{ partNumber := 1, bytes := [10] }, { partNumber := 2, bytes := [20] }]) ∧
    ({ part := 3, etags := ["a", "b"] } : MultipartState).part = 2 + 1 ∧
    ([{ partNumber := 1, bytes := [10] },
      { partNumber := 2, bytes := [20] }] : List PartRequest).map
        PartRequest.partNumber = List.range' 1 2 ∧
    upload_part { part := 10001, etags := [] } [7] (.error (.HttpError "boom")) =
      (.err (.UserError .TriedToSendMoreThan10000PartsInMultiPart)
        { part := 10001, etags := [] }, []) := by
  have h : runParts starts_multipart
      [([10], .ok { etag := some "\"a\"", headerNames := ["etag"] }),
       ([20], .ok { etag := some "\"b\"", headerNames := ["etag"] })] =
      (.ok { part := 3, etags := ["a", "b"] },
       [{ partNumber := 1, bytes := [10] }, { partNumber := 2, bytes := [20] }]) := by
    rfl
  refine ⟨h, ?_, ?_, ?_⟩
  · exact (c3_sequential_parts_and_10000_cap.1 _ _ _ h).1
  · exact (c3_sequential_parts_and_10000_cap.1 _ _ _ h).2
  · exact c3_sequential_parts_and_10000_cap.2 _ _ _ rfl

/-- C4 is false on the code at a concrete input: with an empty buffer, a
stored continuation token 7 and a store whose page fetch fails at the
transport level, the first `next()` call yields exactly one error item but
leaves the iterator state (including the token) unchanged, so the second
`next()` call issues the page request for token 7 again.  The claim said no
subsequent call ever issues another page request. -/
theorem c4_counterexample :
    ListIt.next (fun _ => .fetchErr (.HttpError "timeout")) 5
        { current := [], token := some 7 } =
      (.item (.error (.HttpError "timeout")),
       { current := [], token := some 7 }, [7]) ∧
    (ListIt.next (fun _ => .fetchErr (.HttpError "timeout")) 5
        ((ListIt.next (fun _ => .fetchErr (.HttpError "timeout")) 5
          { current := [], token := some 7 }).2.1)).2.2 = [7] :=
  ⟨rfl, rfl⟩

/-- C4 (amended): when the buffered page is exhausted and fetching the next
page fails (transport, store rejection, non-UTF-8 body, or parse failure),
`next()` yields the failure as exactly one error item and issues exactly
one page request, but leaves the iterator state — buffer and continuation
token — unchanged; consequently the following call issues the same page
request again (the iterator retries the failed page on subsequent calls
instead of stopping). -/
theorem c4_failed_fetch_keeps_state_and_retries (store : Nat → FetchRes)
    (fuel t : Nat) (it : ListIt) (e : Error) (hcur : it.current = [])
    (htok : it.token = some t) (herr : fetchErrorOf (store t) = some e) :
    ListIt.next store (fuel + 1) it = (.item (.error e), it, [t]) ∧
    ListIt.next store (fuel + 1)
        ((ListIt.next store (fuel + 1) it).2.1) =
      (.item (.error e), it, [t]) := by
  obtain ⟨cur, tok⟩ := it
  simp only at hcur htok
  subst hcur htok
  have hmain : ListIt.next store (fuel + 1)
      { current := [], token := some t } =
      (.item (.error e), { current := [], token := some t }, [t]) := by
    cases hs : store t <;> simp [fetchErrorOf, hs] at herr <;>
      simp [ListIt.next, hs, herr]
  exact ⟨hmain, by rw [hmain]; exact hmain⟩

/-- Witness for C4 (amended): a parse failure on the page for token 3. -/
theorem c4_witness :
    ListIt.next (fun _ => .parseErr "bad xml") 2
        { current := [], token := some 3 } =
      (.item (.error (.InternalError (.BadS3Payload "bad xml"))),
       { current := [], token := some 3 }, [3]) ∧
    ListIt.next (fun _ => .parseErr "bad xml") 2
        ((ListIt.next (fun _ => .parseErr "bad xml") 2
          { current := [], token := some 3 }).2.1) =
      (.item (.error (.InternalError (.BadS3Payload "bad xml"))),
       { current := [], token := some 3 }, [3]) :=
  c4_failed_fetch_keeps_state_and_retries (fun _ => .parseErr "bad xml")
    1 3 { current := [], token := some 3 }
    (.InternalError (.BadS3Payload "bad xml")) rfl rfl rfl

/-- C6: on a successful part upload whose response carries an `ETag`
header, the value is quote-trimmed and appended to the session's ETag
sequence (in part order: the request carries the current part number, then
the counter is incremented); when the `ETag` header is absent,
`upload_part` returns `InternalError::MultipartMissingEtagHeader` and the
session's ETag sequence and part counter are left unchanged. -/
theorem c6_etag_header_handling (s : MultipartState) (buffer : List Nat)
    (r : PartResponse) (hp : s.part ≤ 10000) :
    (∀ v, r.etag = some v →
       upload_part s buffer (.ok r) =
         (.ok { part := s.part + 1, etags := s.etags ++ [trimQuotes v] },
          [{ partNumber := s.part, bytes := buffer }])) ∧
    (r.etag = none →
       upload_part s buffer (.ok r) =
         (.err (.InternalError (.MultipartMissingEtagHeader
             (String.intercalate ", " r.headerNames))) s,
          [{ partNumber := s.part, bytes := buffer }])) := by
  constructor
  · intro v hv
    unfold upload_part
    rw [if_neg (by omega)]
    simp [hv]
  · intro hv
    unfold upload_part
    rw [if_neg (by omega)]
    simp [hv]

/-- Witness for C6: the ETag `"abc"` (with its surrounding quotes) is
stripped to `abc` and appended; a response with no `ETag` header yields
`InternalError::MultipartMissingEtagHeader` and the fresh session state is
returned unchanged. -/
theorem c6_witness :
    upload_part starts_multipart [5]
        (.ok { etag := some "\"abc\"", headerNames := ["etag", "date"] }) =
      (.ok { part := 2, etags := ["abc"] },
       [{ partNumber := 1, bytes := [5] }]) ∧
    upload_part starts_multipart [5]
        (.ok { etag := none, headerNames := ["x-amz-id-2", "date"] }) =
      (.err (.InternalError (.MultipartMissingEtagHeader "x-amz-id-2, date"))
        starts_multipart, [{ partNumber := 1, bytes := [5] }]) := by
  have h1 := (c6_etag_header_handling starts_multipart [5]
    { etag := some "\"abc\"", headerNames := ["etag", "date"] }
    (by decide)).1 "\"abc\"" rfl
  have h2 := (c6_etag_header_handling starts_multipart [5]
    { etag := none, headerNames := ["x-amz-id-2", "date"] }
    (by decide)).2 rfl
  exact ⟨by simpa using h1, by simpa using h2⟩

/-- Helper: one `read` call returns some prefix of the remaining data — of
positive length whenever there is both buffer space and remaining data —
and advances the stream past it. -/
theorem read_spec (s : ByteStream) (space : Nat) :
    ∃ n, n ≤ space ∧ n ≤ s.data.length ∧
      (s.read space).1 = s.data.take n ∧
      (s.read space).2.data = s.data.drop n ∧
      (space ≠ 0 → s.data.length ≠ 0 → n ≠ 0) := by
  cases hs : s.sched with
  | nil =>
    refine ⟨min space s.data.length, by omega, by omega, ?_, ?_, by omega⟩ <;>
      simp [ByteStream.read, hs]
  | cons k tl =>
    refine ⟨min (min (max k 1) space) s.data.length, ?_, by omega, ?_, ?_, ?_⟩
    · have := Nat.le_max_right k 1
      omega
    · simp [ByteStream.read, hs]
    · simp [ByteStream.read, hs]
    · intro h1 h2
      have := Nat.le_max_right k 1
      omega

/-- Helper: the inner read loop, run with enough fuel, fills the buffer
with exactly the next `min space (data length)` bytes of the stream — it
keeps reading past short reads until the buffer is full or the data runs
out — and advances the stream past them. -/
theorem fillBuffer_spec :
    ∀ fuel (s : ByteStream) (space : Nat) (acc : List Nat), space ≤ fuel →
      (fillBuffer fuel s space acc).1 =
        acc ++ s.data.take (min space s.data.length) ∧
      (fillBuffer fuel s space acc).2.data =
        s.data.drop (min space s.data.length) := by
  intro fuel
  induction fuel with
  | zero =>
    intro s space acc h
    have hz : space = 0 := by omega
    subst hz
    simp [fillBuffer]
  | succ fuel ih =>
    intro s space acc h
    by_cases hsp : space = 0
    · subst hsp
      simp [fillBuffer]
    · simp only [fillBuffer, if_neg hsp]
      obtain ⟨n, hn_sp, hn_len, h1, h2, hnz⟩ := read_spec s space
      by_cases hd : s.data.length = 0
      · have hn : n = 0 := by omega
        have hmin : min space s.data.length = 0 := by omega
        subst hn
        rw [h1, hmin]
        simp [h2]
      · have hn0 : n ≠ 0 := hnz hsp hd
        rw [h1]
        have hlen : (s.data.take n).length = n := by
          rw [List.length_take]
          omega
        rw [hlen, if_neg hn0]
        obtain ⟨ih1, ih2⟩ :=
          ih (s.read space).2 (space - n) (acc ++ s.data.take n) (by omega)
        rw [ih1, ih2, h2]
        have hdl : (s.data.drop n).length = s.data.length - n :=
          List.length_drop n s.data
        rw [hdl]
        have hmin : min (space - n) (s.data.length - n) =
            min space s.data.length - n := by omega
        rw [hmin]
        constructor
        · rw [List.append_assoc]
          congr 1
          rw [← List.take_add]
          congr 1
          omega
        · rw [List.drop_drop]
          congr 1
          omega

/-- Helper: on an empty source the outer loop sends no part at all. -/
theorem multipartPartsAux_nil (fuel chunkSize : Nat) (s : ByteStream)
    (h : s.data = []) : multipartPartsAux fuel chunkSize s = [] := by
  cases fuel with
  | zero => rfl
  | succ fuel =>
    obtain ⟨hf1, _⟩ := fillBuffer_spec (chunkSize + 1) s chunkSize [] (by omega)
    simp only [multipartPartsAux]
    rw [hf1, h]
    simp

/-- Helper: with enough fuel, the parts produced by the outer loop
concatenate back to the source data, are all non-empty and at most
`chunkSize` long, and all of them except possibly the last are exactly
`chunkSize` long. -/
theorem multipartPartsAux_props (chunkSize : Nat) (hcs : 0 < chunkSize) :
    ∀ fuel (s : ByteStream), s.data.length < fuel →
      (multipartPartsAux fuel chunkSize s).flatten = s.data ∧
      (∀ p ∈ multipartPartsAux fuel chunkSize s,
         p ≠ [] ∧ p.length ≤ chunkSize) ∧
      (∀ p ∈ (multipartPartsAux fuel chunkSize s).dropLast,
         p.length = chunkSize) := by
  intro fuel
  induction fuel with
  | zero => intro s h; omega
  | succ fuel ih =>
    intro s h
    obtain ⟨hf1, hf2⟩ := fillBuffer_spec (chunkSize + 1) s chunkSize [] (by omega)
    simp only [multipartPartsAux]
    rw [hf1]
    simp only [List.nil_append]
    by_cases hd : s.data.length = 0
    · have hdata : s.data = [] := List.length_eq_zero.mp hd
      rw [hdata]
      simp
    · have hbuflen : (s.data.take (min chunkSize s.data.length)).length =
          min chunkSize s.data.length := by
        rw [List.length_take]
        omega
      rw [hbuflen, if_neg (by omega)]
      have hrecdata : (fillBuffer (chunkSize + 1) s chunkSize []).2.data.length =
          s.data.length - min chunkSize s.data.length := by
        rw [hf2, List.length_drop]
      obtain ⟨ihf, ihm, ihd⟩ :=
        ih (fillBuffer (chunkSize + 1) s chunkSize []).2 (by omega)
      refine ⟨?_, ?_, ?_⟩
      · rw [List.flatten_cons, ihf, hf2, List.take_append_drop]
      · intro p hp
        rcases List.mem_cons.mp hp with hp | hp
        · subst hp
          constructor
          · intro hemp
            rw [hemp] at hbuflen
            simp at hbuflen
            omega
          · rw [hbuflen]
            omega
        · exact ihm p hp
      · by_cases htail :
          multipartPartsAux fuel chunkSize
            (fillBuffer (chunkSize + 1) s chunkSize []).2 = []
        · rw [htail]
          simp
        · rw [List.dropLast_cons_of_ne_nil htail]
          intro p hp
          rcases List.mem_cons.mp hp with hp | hp
          · subst hp
            rw [hbuflen]
            have hne : (fillBuffer (chunkSize + 1) s chunkSize []).2.data ≠ [] := by
              intro hnil
              exact htail (multipartPartsAux_nil _ _ _ hnil)
            have : (fillBuffer (chunkSize + 1) s chunkSize []).2.data.length ≠ 0 := by
              simpa [List.length_eq_zero] using hne
            omega
          · exact ihd p hp

/-- C5: for every source stream and positive chunk size, the read loop of
`put_object_multipart` retries short reads until the buffer holds
`chunkSize` bytes or the stream is out of data; consequently every part it
sends except possibly the last has exactly `chunkSize` bytes, no empty part
is ever sent (a zero-length fill terminates the loop without an upload-part
request), and the parts concatenate back to the source bytes. -/
theorem c5_chunk_sizes (chunkSize : Nat) (s : ByteStream)
    (hcs : 0 < chunkSize) :
    (∀ p ∈ (multipartParts chunkSize s).dropLast, p.length = chunkSize) ∧
    (∀ p ∈ multipartParts chunkSize s, p ≠ [] ∧ p.length ≤ chunkSize) ∧
    (multipartParts chunkSize s).flatten = s.data := by
  obtain ⟨h1, h2, h3⟩ :=
    multipartPartsAux_props chunkSize hcs (s.data.length + 1) s (by omega)
  exact ⟨h3, h2, h1⟩

/-- Witness for C5: a 7-byte stream with a short-read schedule (first read
returns 2 bytes, second 5-but-clamped, …) and chunk size 3 produces the
parts `[1,2,3]`, `[4,5,6]`, `[7]`. -/
theorem c5_witness :
    multipartParts 3 { data := [1, 2, 3, 4, 5, 6, 7], sched := [2, 5] } =
      [[1, 2, 3], [4, 5, 6], [7]] ∧
    (∀ p ∈ (multipartParts 3
        { data := [1, 2, 3, 4, 5, 6, 7], sched := [2, 5] }).dropLast,
       p.length = 3) ∧
    (multipartParts 3
        { data := [1, 2, 3, 4, 5, 6, 7], sched := [2, 5] }).flatten =
      [1, 2, 3, 4, 5, 6, 7] :=
  ⟨rfl,
   (c5_chunk_sizes 3 { data := [1, 2, 3, 4, 5, 6, 7], sched := [2, 5] }
     (by decide)).1,
   (c5_chunk_sizes 3 { data := [1, 2, 3, 4, 5, 6, 7], sched := [2, 5] }
     (by decide)).2.2⟩

/-- C10: for a source whose very first read sequence yields zero bytes (an
empty source), `put_object_multipart` issues the create-multipart request,
sends no upload-part request, and issues the complete-multipart request
with an empty part list — a zero-part completion. -/
theorem c10_empty_source_zero_part_completion (chunkSize : Nat)
    (s : ByteStream) (etagOf : Nat → String) (h : s.data = []) :
    put_object_multipart chunkSize s etagOf =
      { createIssued := true, partUploads := [], completeParts := some [] } := by
  have hparts : multipartParts chunkSize s = [] :=
    multipartPartsAux_nil _ _ _ h
  simp [put_object_multipart, hparts]

/-- Witness for C10 at a concrete empty stream. -/
theorem c10_witness :
    put_object_multipart 4 { data := [], sched := [3] } (fun _ => "\"e\"") =
      { createIssued := true, partUploads := [], completeParts := some [] } :=
  c10_empty_source_zero_part_completion 4 { data := [], sched := [3] }
    (fun _ => "\"e\"") rfl

/-- Helper: a buffered entry is popped and yielded without any request. -/
theorem next_yield_step (store : Nat → FetchRes) (fuel : Nat) (e : Entry)
    (rest : List Entry) (tok : Option Nat) :
    ListIt.next store fuel { current := e :: rest, token := tok } =
      (.item (.ok e), { current := rest, token := tok }, []) := by
  cases fuel <;> rfl

/-- Helper: with an empty buffer and no token, `next` signals exhaustion,
changes nothing and issues no request — for any store and any fuel. -/
theorem next_exhausted_step (store : Nat → FetchRes) (fuel : Nat) :
    ListIt.next store fuel { current := [], token := none } =
      (.exhausted, { current := [], token := none }, []) := by
  cases fuel <;> rfl

/-- Helper: with an empty buffer and a token whose fetch parses, `next`
installs the page and recurses, recording the request. -/
theorem next_fetch_ok_step (store : Nat → FetchRes) (fuel t : Nat)
    (page : Page) (hs : store t = .ok page) :
    ListIt.next store (fuel + 1) { current := [], token := some t } =
      ((ListIt.next store fuel
          { current := page.contents, token := page.nextToken }).1,
       (ListIt.next store fuel
          { current := page.contents, token := page.nextToken }).2.1,
       t :: (ListIt.next store fuel
          { current := page.contents, token := page.nextToken }).2.2) := by
  simp only [ListIt.next]
  rw [hs]

/-- Helper: over a finite chain of pages, one `next` call with enough fuel
either yields exactly the head of the remaining entries and leaves the
iterator holding exactly the tail, or — when no entries remain — walks any
trailing empty pages and lands in the token-free empty terminal state. -/
theorem chain_next_spec (pages : List (List Entry)) :
    ∀ fuel it, wfIt pages it →
      (∀ i, it.token = some i → pages.length - i < fuel) →
      (∀ e es, remEntries pages it = e :: es →
         ∃ it2 reqs,
           ListIt.next (chainStore pages) fuel it = (.item (.ok e), it2, reqs) ∧
           wfIt pages it2 ∧ remEntries pages it2 = es) ∧
      (remEntries pages it = [] →
         ∃ it2 reqs,
           ListIt.next (chainStore pages) fuel it = (.exhausted, it2, reqs) ∧
           it2.current = [] ∧ it2.token = none) := by
  intro fuel
  induction fuel with
  | zero =>
    intro it hwf hfuel
    obtain ⟨cur, tok⟩ := it
    cases tok with
    | some i =>
      have h1 := hwf i rfl
      have h2 := hfuel i rfl
      omega
    | none =>
      cases cur with
      | nil =>
        constructor
        · intro e es hrem
          simp [remEntries] at hrem
        · intro _
          exact ⟨{ current := [], token := none }, [],
            next_exhausted_step _ _, rfl, rfl⟩
      | cons e rest =>
        constructor
        · intro e1 es hrem
          simp only [remEntries, List.append_nil] at hrem
          injection hrem with he hes
          subst he
          refine ⟨{ current := rest, token := none }, [],
            next_yield_step _ _ _ _ _, ?_, ?_⟩
          · intro j hj
            cases hj
          · simp only [remEntries, List.append_nil]
            exact hes
        · intro hrem
          simp [remEntries] at hrem
  | succ fuel ih =>
    intro it hwf hfuel
    obtain ⟨cur, tok⟩ := it
    cases cur with
    | cons e rest =>
      constructor
      · intro e1 es hrem
        simp only [remEntries, List.cons_append] at hrem
        injection hrem with he hes
        subst he
        refine ⟨{ current := rest, token := tok }, [],
          next_yield_step _ _ _ _ _, ?_, ?_⟩
        · intro j hj
          exact hwf j hj
        · simp only [remEntries]
          exact hes
      · intro hrem
        simp [remEntries] at hrem
    | nil =>
      cases tok with
      | none =>
        constructor
        · intro e es hrem
          simp [remEntries] at hrem
        · intro _
          exact ⟨{ current := [], token := none }, [],
            next_exhausted_step _ _, rfl, rfl⟩
      | some i =>
        have hi : i < pages.length := hwf i rfl
        have hbound := hfuel i rfl
        have hstore : chainStore pages i = .ok
            { contents := pages[i],
              nextToken := if i + 1 < pages.length then some (i + 1) else none } := by
          simp [chainStore, hi]
        have hstep := next_fetch_ok_step (chainStore pages) fuel i _ hstore
        simp only at hstep
        have hwf3 : wfIt pages
            { current := pages[i],
              token := if i + 1 < pages.length then some (i + 1) else none } := by
          intro j hj
          simp only at hj
          by_cases hlt : i + 1 < pages.length
          · rw [if_pos hlt] at hj
            injection hj with hj
            omega
          · rw [if_neg hlt] at hj
            cases hj
        have hb3 : ∀ j,
            ({ current := pages[i],
               token := if i + 1 < pages.length then some (i + 1) else none } :
                 ListIt).token = some j → pages.length - j < fuel := by
          intro j hj
          simp only at hj
          by_cases hlt : i + 1 < pages.length
          · rw [if_pos hlt] at hj
            injection hj with hj
            omega
          · rw [if_neg hlt] at hj
            cases hj
        have hrem3 : remEntries pages
            { current := pages[i],
              token := if i + 1 < pages.length then some (i + 1) else none } =
            remEntries pages { current := [], token := some i } := by
          simp only [remEntries]
          by_cases hlt : i + 1 < pages.length
          · rw [if_pos hlt]
            rw [List.drop_eq_getElem_cons hi, List.flatten_cons]
            simp
          · rw [if_neg hlt]
            rw [List.drop_eq_getElem_cons hi, List.flatten_cons]
            have hnil : pages.drop (i + 1) = [] :=
              List.drop_eq_nil_of_le (by omega)
            rw [hnil]
            simp
        obtain ⟨ih1, ih2⟩ := ih
          { current := pages[i],
            token := if i + 1 < pages.length then some (i + 1) else none } hwf3 hb3
        constructor
        · intro e es hrem
          rw [← hrem3] at hrem
          obtain ⟨it2, reqs, hn, hw2, hr2⟩ := ih1 e es hrem
          refine ⟨it2, i :: reqs, ?_, hw2, hr2⟩
          rw [hstep, hn]
        · intro hrem
          rw [← hrem3] at hrem
          obtain ⟨it2, reqs, hn, hc2, ht2⟩ := ih2 hrem
          refine ⟨it2, i :: reqs, ?_, hc2, ht2⟩
          rw [hstep, hn]

/-- C7: over any finite chain of listing pages served by the store, each
`next` call yields exactly the head of the still-unyielded entries (the
buffered ones followed by the contents of the unfetched pages in page
order) and leaves exactly the tail still to yield — so every entry is
yielded exactly once, in page order, with no re-emission and no skipping,
and intermediate zero-entry pages that carry a token are walked through
rather than terminating; when nothing remains the iterator lands in the
empty, token-free terminal state, and in that state every further call —
for any store whatsoever — signals exhaustion, changes nothing and issues
no page request. -/
theorem c7_iterator_yields_each_entry_once (pages : List (List Entry))
    (it : ListIt) (fuel : Nat) (hwf : wfIt pages it)
    (hfuel : pages.length < fuel) :
    (∀ e es, remEntries pages it = e :: es →
       ∃ it2 reqs,
         ListIt.next (chainStore pages) fuel it = (.item (.ok e), it2, reqs) ∧
         wfIt pages it2 ∧ remEntries pages it2 = es) ∧
    (remEntries pages it = [] →
       ∃ it2 reqs,
         ListIt.next (chainStore pages) fuel it = (.exhausted, it2, reqs) ∧
         it2.current = [] ∧ it2.token = none) ∧
    (∀ (store : Nat → FetchRes) (f : Nat) (j : ListIt),
       j.current = [] → j.token = none →
       ListIt.next store f j = (.exhausted, j, [])) := by
  obtain ⟨h1, h2⟩ := chain_next_spec pages fuel it hwf
    (by intro i hti; omega)
  refine ⟨h1, h2, ?_⟩
  intro store f j hc ht
  obtain ⟨cur, tok⟩ := j
  simp only at hc ht
  subst hc ht
  exact next_exhausted_step store f

/-- Witness for C7: the synthetic chain page 1 = two entries plus a token,
page 2 = one entry and no token; the first call on the freshly-initialized
iterator yields the first entry and leaves exactly the remaining two; the
terminal state yields exhaustion with no request. -/
theorem c7_witness :
    (∃ it2 reqs,
       ListIt.next
           (chainStore [[⟨"a", 1⟩, ⟨"b", 2⟩], [⟨"c", 3⟩]]) 3
           { current := [⟨"a", 1⟩, ⟨"b", 2⟩], token := some 1 } =
         (.item (.ok ⟨"a", 1⟩), it2, reqs) ∧
       wfIt [[⟨"a", 1⟩, ⟨"b", 2⟩], [⟨"c", 3⟩]] it2 ∧
       remEntries [[⟨"a", 1⟩, ⟨"b", 2⟩], [⟨"c", 3⟩]] it2 =
         [⟨"b", 2⟩, ⟨"c", 3⟩]) ∧
    ListIt.next (fun _ => .parseErr "x") 0 { current := [], token := none } =
      (.exhausted, { current := [], token := none }, []) := by
  have h := c7_iterator_yields_each_entry_once
    [[⟨"a", 1⟩, ⟨"b", 2⟩], [⟨"c", 3⟩]]
    { current := [⟨"a", 1⟩, ⟨"b", 2⟩], token := some 1 } 3
    (by intro i hi; injection hi with hi; subst hi; decide) (by decide)
  exact ⟨h.1 ⟨"a", 1⟩ [⟨"b", 2⟩, ⟨"c", 3⟩] rfl, h.2.2 _ 0 _ rfl rfl⟩

end Strois
